import Mathlib

/-!
Verification of the retrieval core of the rag-gene-discovery-assistant
repository: corpus loading (`load_abstracts`), embedding generation with
checkpoint resumption (`generate_embeddings`), L2 normalization and flat
inner-product index construction (`build_faiss_index`), index persistence
(`save_index` / `load_faiss_index`), and query-time retrieval
(`FAISSPMIDRetriever._get_relevant_documents`).

Modelling conventions:
- Embedding vectors are lists of rationals (`Vec`). The float arithmetic of
  the original is idealized to exact rational arithmetic; the properties
  verified here are structural (lengths, ordering, identifier mapping),
  not numeric-precision facts.
- The Ollama embedding provider is a function `String → Option Vec`; a
  `none` result models the provider call raising an exception.
- The float square root used by FAISS normalization is abstracted as a
  function parameter `sqrt : ℚ → ℚ` (IEEE sqrtf maps 1.0 to exactly 1.0,
  which is the only concrete value any verified property needs).
- FAISS `IndexFlatIP.search(q, k)` is modelled after the FAISS library
  semantics: it scores every stored row by inner product, returns the k
  best rows in descending score order, and when k exceeds the number of
  stored vectors it pads the result arrays with label -1 and the lowest
  possible score (modelled as `⊥` in `WithBot ℚ`). The result arrays
  always have exactly k entries. Ties are broken by ascending row index
  in the model (the library leaves tie order unspecified).
- Python list indexing `xs[i]` is modelled by `pyIndex`, including the
  Python semantics for negative indices: `xs[-1]` is the last element.
- The filesystem seen by `save_index` and `load_faiss_index` is a pair of
  optional file contents for the two fixed paths `INDEX_FILE` and
  `ID_MAP_FILE`; `faiss.write_index` / `faiss.read_index` binary
  round-trip fidelity is a library contract and is modelled as storing
  the index value itself.
- The return conversion `np.array(embeddings, dtype="float32")` of the
  embedding generator is modelled by `npFloat32Array`, which raises
  (returns `none`) on a ragged list of rows, as numpy does for a float
  dtype.
-/

set_option maxRecDepth 4096

/-- Embedding vector: list of rationals standing for the float vectors of
the original code. -/
abbrev Vec : Type := List ℚ

/-- Embedding provider: the `ollama.embeddings(model=..., prompt=text)`
call for a fixed model. `none` models the call raising an exception
(timeout, service failure). A function is deterministic by construction,
matching the determinism hypothesis of the resumability property. -/
abbrev Provider : Type := String → Option Vec

/-- One iteration body of the `generate_embeddings` loop in
`src/ragbio/embeddings/embedding_engine.py`: try the provider; on an
exception substitute the hardcoded placeholder `[0] * 768`. -/
def embedOne (provider : Provider) (text : String) : Vec :=
  match provider text with
  | some v => v
  | none => List.replicate 768 (0 : ℚ)

/-- The loop `for i in range(start_idx, len(texts))` of
`generate_embeddings`, translated structurally: the first argument is
`texts[start_idx:]` and the second is the running index `i`. Returns the
vectors appended by the loop together with the list of indices at which
the provider was called (every iteration calls the provider exactly
once). -/
def genLoop (provider : Provider) : List String → Nat → List Vec × List Nat
  | [], _ => ([], [])
  | t :: rest, i =>
    let r := genLoop provider rest (i + 1)
    (embedOne provider t :: r.1, i :: r.2)

/-- Model of `generate_embeddings(texts, model_name, checkpoint_path)` in
`src/ragbio/embeddings/embedding_engine.py`. The checkpoint argument is
`none` when no checkpoint file exists, `some saved` when one exists with
contents `saved`; the code sets `start_idx = len(saved)`, keeps the saved
vectors, and iterates `i` from `start_idx` to `len(texts) - 1` appending
one vector per text. The second component records the indices at which
the provider was called. Checkpoint file writes and the rate-limit sleep
do not affect the returned value and are not modelled. This definition
models the state of the `embeddings` list when the loop finishes; the
return expression of the Python function converts that list to a float32
array, a step modelled separately by `generate_embeddings_full`. -/
def generate_embeddings (provider : Provider) (texts : List String)
    (checkpoint : Option (List Vec)) : List Vec × List Nat :=
  let saved := checkpoint.getD []
  let r := genLoop provider (texts.drop saved.length) saved.length
  (saved ++ r.1, r.2)

/-- Model of `np.array(rows, dtype="float32")` on a list of rows: numpy
builds a two-dimensional float32 array only when every row has the same
length, and raises ValueError (modelled as `none`) on a ragged list of
rows. -/
def npFloat32Array (rows : List Vec) : Option (List Vec) :=
  match rows with
  | [] => some []
  | r :: rest =>
    if rest.all (fun v => v.length == r.length) then some (r :: rest) else none

/-- Full model of `generate_embeddings` in
`src/ragbio/embeddings/embedding_engine.py` including its return
expression `np.array(embeddings, dtype="float32")`: the vectors
accumulated by the loop are converted to a float32 array, which raises
(returns `none`) when the accumulated vectors do not all share one
dimensionality. -/
def generate_embeddings_full (provider : Provider) (texts : List String)
    (checkpoint : Option (List Vec)) : Option (List Vec) :=
  npFloat32Array (generate_embeddings provider texts checkpoint).1

/-- One JSON file of the abstract folder as `load_abstracts` sees it:
a filename, the value of the mandatory `pmid` field, and the value of the
optional `abstract` field (`data.get("abstract", "")` returns the empty
string when the field is absent, modelled by `Option String`). -/
structure AbstractFile where
  name : String
  pmid : String
  abstract : Option String
deriving DecidableEq

/-- Model of the Python `str.endswith(suffix)` test, phrased over the
character sequences of the strings. -/
def pyEndsWith (s suff : String) : Bool :=
  suff.data.isSuffixOf s.data

/-- Model of the Python `str.strip()` call with no argument: remove
leading and trailing whitespace characters. -/
def pyStrip (s : String) : String :=
  ⟨((s.data.dropWhile Char.isWhitespace).reverse.dropWhile
      Char.isWhitespace).reverse⟩

/-- Condition under which `load_abstracts` keeps a file: the filename
ends in `.json` and `data.get("abstract", "").strip()` is non-empty. -/
def keepFile (f : AbstractFile) : Bool :=
  pyEndsWith f.name ".json" && (pyStrip (f.abstract.getD "") != "")

/-- Model of `load_abstracts()` in
`src/ragbio/embeddings/embedding_engine.py`. The argument is the
directory listing in the exact order `os.listdir` produced it — Python
documents that order as arbitrary, so it is an input of the model rather
than a function of the file contents. For each `.json` file in listing
order, the stripped abstract text and the pmid are appended when the
stripped text is non-empty. -/
def load_abstracts : List AbstractFile → List String × List String
  | [] => ([], [])
  | f :: rest =>
    let r := load_abstracts rest
    if pyEndsWith f.name ".json" then
      let text := pyStrip (f.abstract.getD "")
      if text ≠ "" then (text :: r.1, f.pmid :: r.2) else r
    else r

/-- Squared Euclidean norm of a vector, the `fvec_norm_L2sqr` of FAISS. -/
def normSq (v : Vec) : ℚ := (v.map (fun x => x * x)).sum

/-- Model of `faiss.normalize_L2` on a single row, following the FAISS
`fvec_renorm_L2` implementation: compute the squared norm `nr`; only when
`nr > 0` divide every coordinate by `sqrt nr`; a row with zero norm is
left untouched (so no division by zero ever happens). The float square
root is abstracted as the function parameter `sqrt`. -/
def normalize_L2 (sqrt : ℚ → ℚ) (v : Vec) : Vec :=
  if 0 < normSq v then v.map (fun x => x / sqrt (normSq v)) else v

/-- A FAISS `IndexFlatIP`: the stored rows, in insertion order. -/
structure FaissIndex where
  vectors : List Vec
deriving DecidableEq

/-- The `index.ntotal` attribute: number of stored vectors. -/
def FaissIndex.ntotal (idx : FaissIndex) : Nat := idx.vectors.length

/-- Model of `build_faiss_index(embeddings)` in
`src/ragbio/embeddings/embedding_engine.py`: L2-normalize every row in
place, then add all rows to a flat inner-product index. The GPU branch
and its CPU fallback build the same logical flat index, so the model has
a single constructor. -/
def build_faiss_index (sqrt : ℚ → ℚ) (embeddings : List Vec) : FaissIndex :=
  ⟨embeddings.map (normalize_L2 sqrt)⟩

/-- Inner product of two vectors. -/
def dot (u v : Vec) : ℚ := (List.zipWith (fun a b => a * b) u v).sum

/-- Score of every stored row against a query: pairs of the row label
(as the Int64 labels FAISS returns) and the inner-product score. `⊥` of
`WithBot ℚ` is reserved for the sentinel score of padding entries. -/
def scoreRows (idx : FaissIndex) (q : Vec) : List (Int × WithBot ℚ) :=
  idx.vectors.enum.map (fun p => ((p.1 : Int), ((dot q p.2 : ℚ) : WithBot ℚ)))

/-- Insertion step of the descending ranking: higher score first, ties
broken by ascending label (the FAISS library leaves tie order
unspecified; the model fixes this deterministic choice). -/
def insertRanked (p : Int × WithBot ℚ) :
    List (Int × WithBot ℚ) → List (Int × WithBot ℚ)
  | [] => [p]
  | q :: rest =>
    if q.2 < p.2 ∨ (p.2 = q.2 ∧ p.1 < q.1) then p :: q :: rest
    else q :: insertRanked p rest

/-- Rows sorted by descending score. -/
def rankDesc (l : List (Int × WithBot ℚ)) : List (Int × WithBot ℚ) :=
  l.foldr insertRanked []

/-- Model of `index.search(q, k)` for a FAISS flat inner-product index:
the k best rows in descending score order; when k exceeds `ntotal` the
result is padded with label `-1` and the lowest possible score, so the
returned arrays always have exactly k entries (documented FAISS
behavior). -/
def FaissIndex.search (idx : FaissIndex) (q : Vec) (k : Nat) :
    List (Int × WithBot ℚ) :=
  let top := (rankDesc (scoreRows idx q)).take k
  top ++ List.replicate (k - top.length) ((-1 : Int), (⊥ : WithBot ℚ))

/-- Python list indexing `xs[i]` for a possibly negative `i`: a negative
index counts from the end (`xs[-1]` is the last element); `none` models
an IndexError. -/
def pyIndex (xs : List String) (i : Int) : Option String :=
  let j : Int := if i < 0 then i + xs.length else i
  if 0 ≤ j then xs[j.toNat]? else none

/-- The result loop `for i, score in zip(indices[0], distances[0])` of
`_get_relevant_documents`: resolve every returned label through the pmid
map with Python indexing, pairing it with its score; `none` models an
IndexError raised inside the loop. -/
def mapDocs (pmidMap : List String) :
    List (Int × WithBot ℚ) → Option (List (String × WithBot ℚ))
  | [] => some []
  | r :: rest =>
    match pyIndex pmidMap r.1 with
    | none => none
    | some pmid =>
      match mapDocs pmidMap rest with
      | none => none
      | some docs => some ((pmid, r.2) :: docs)

/-- Model of `FAISSPMIDRetriever._get_relevant_documents(query)` in
`src/ragbio/pipeline/rag_pipeline.py` (the loop body of
`RAGAssistant.retrieve_top_pmids` in `src/src/rag_pipeline.py` is the
same): embed the query, L2-normalize it, search the index with `k`, and
map every returned label through `pmid_map` with Python indexing,
pairing it with the returned score. A `none` result models an
IndexError escaping the loop; otherwise the documents are returned in
result order. -/
def getRelevantDocuments (sqrt : ℚ → ℚ) (embedQuery : String → Vec)
    (idx : FaissIndex) (pmidMap : List String) (k : Nat) (query : String) :
    Option (List (String × WithBot ℚ)) :=
  let qe := normalize_L2 sqrt (embedQuery query)
  mapDocs pmidMap (idx.search qe k)

/-- Contents of the two fixed persistence paths of `ragbio.config`:
`INDEX_FILE` (the FAISS binary, modelled as the index value itself since
`faiss.write_index` / `faiss.read_index` round-trip fidelity is a library
contract) and `ID_MAP_FILE` (the JSON array of pmids). `none` means the
file does not exist. -/
structure SavedState where
  indexFile : Option FaissIndex
  idMapFile : Option (List String)
deriving DecidableEq

/-- Model of `save_index(index, pmids)` in
`src/ragbio/embeddings/embedding_engine.py`: write the index at
`INDEX_FILE` and the pmid list, in order, as a JSON array at
`ID_MAP_FILE`, overwriting previous contents. -/
def save_index (_fs : SavedState) (idx : FaissIndex) (pmids : List String) :
    SavedState :=
  { indexFile := some idx, idMapFile := some pmids }

/-- Model of `RAGAssistant.load_faiss_index()` in
`src/ragbio/pipeline/rag_pipeline.py`: raise FileNotFoundError when
either fixed path is missing (checking the index file first), otherwise
read the index and the pmid array back. -/
def load_faiss_index (fs : SavedState) :
    Except String (FaissIndex × List String) :=
  match fs.indexFile with
  | none => .error "FAISS index not found"
  | some idx =>
    match fs.idMapFile with
    | none => .error "PMID map not found"
    | some pmids => .ok (idx, pmids)

/-- Concrete one-row index used to evaluate the retriever at the
boundary case k greater than ntotal. -/
def demoIndex : FaissIndex := ⟨[[1, 0]]⟩

/-- Concrete query embedder for the boundary-case evaluation: every
query embeds to the unit vector `[1, 0]`. -/
def demoEmbed : String → Vec := fun _ => [1, 0]

/-- Concrete provider for evaluating the failure placeholder: the
default `MODEL_NAME` of `src/ragbio/config.py` is `mxbai-embed-large`,
whose embedding vectors have 1024 coordinates; this provider returns
1024-coordinate vectors and fails (raises) exactly on the text `t1`. -/
def providerMx : Provider :=
  fun s => if s = "t1" then none else some (List.replicate 1024 (1 : ℚ))

/-- Listing entry `a.json` for the enumeration-order evaluation. -/
def fileA : AbstractFile := ⟨"a.json", "pa", some "alpha"⟩

/-- Listing entry `b.json` for the enumeration-order evaluation. -/
def fileB : AbstractFile := ⟨"b.json", "pb", some "beta"⟩

lemma genLoop_fst (provider : Provider) :
    ∀ (l : List String) (i : Nat),
      (genLoop provider l i).1 = l.map (embedOne provider) := by
  intro l
  induction l with
  | nil => intro i; rfl
  | cons t rest ih => intro i; simp [genLoop, ih]

lemma genLoop_snd (provider : Provider) :
    ∀ (l : List String) (i : Nat),
      (genLoop provider l i).2 = List.range' i l.length := by
  intro l
  induction l with
  | nil => intro i; rfl
  | cons t rest ih => intro i; simp [genLoop, ih, List.range'_succ]

lemma generate_embeddings_none (provider : Provider) (texts : List String) :
    (generate_embeddings provider texts none).1 = texts.map (embedOne provider) := by
  simp [generate_embeddings, genLoop_fst]

lemma generate_embeddings_some (provider : Provider) (texts : List String)
    (ckpt : List Vec) :
    (generate_embeddings provider texts (some ckpt)).1
      = ckpt ++ (texts.drop ckpt.length).map (embedOne provider) := by
  simp [generate_embeddings, genLoop_fst]

lemma generate_embeddings_calls (provider : Provider) (texts : List String)
    (ckpt : List Vec) :
    (generate_embeddings provider texts (some ckpt)).2
      = List.range' ckpt.length (texts.drop ckpt.length).length := by
  simp [generate_embeddings, genLoop_snd]

/-- Claim C3 evaluation: the loop of `generate_embeddings` does catch
every provider exception — at the failing input the provider raises on
the second of two texts and the loop still accumulates one vector per
text — but the function then raises at its return expression:
`np.array(embeddings, dtype="float32")` fails on the ragged list
produced when the hardcoded 768-coordinate placeholder mixes with the
1024-coordinate outputs of the configured default model. So generation
does not return one vector per input text for every failure pattern: at
this in-scope input it raises instead of returning, refuting the
unconditional return-and-alignment guarantee. -/
theorem generate_embeddings_raises_on_ragged :
    providerMx "t1" = none ∧
    (generate_embeddings providerMx ["t0", "t1"] none).1.length = 2 ∧
    generate_embeddings_full providerMx ["t0", "t1"] none = none := by
  have hm : (generate_embeddings providerMx ["t0", "t1"] none).1
      = [List.replicate 1024 (1 : ℚ), List.replicate 768 (0 : ℚ)] := by
    rw [generate_embeddings_none]; rfl
  refine ⟨rfl, ?_, ?_⟩
  · rw [hm]
    rfl
  · show npFloat32Array (generate_embeddings providerMx ["t0", "t1"] none).1 = none
    rw [hm]
    simp [npFloat32Array]

/-- Claim C5: generating embeddings after resuming from a checkpoint
that holds the one-pass results of the first n texts yields exactly the
final vector sequence of a single uninterrupted pass (the provider,
being a function, is deterministic); and on any resume the provider is
called only at positions at least the number of checkpointed vectors. -/
theorem generate_embeddings_resume_eq_one_pass (provider : Provider)
    (texts : List String) (n : Nat) :
    (generate_embeddings provider texts
        (some (generate_embeddings provider (texts.take n) none).1)).1
      = (generate_embeddings provider texts none).1 ∧
    ∀ ckpt : List Vec, ∀ i ∈ (generate_embeddings provider texts (some ckpt)).2,
      ckpt.length ≤ i := by
  constructor
  · rw [generate_embeddings_none provider (texts.take n),
      generate_embeddings_some, generate_embeddings_none]
    have hlen : ((texts.take n).map (embedOne provider)).length
        = min n texts.length := by simp
    rw [hlen]
    have htake : texts.take n = texts.take (min n texts.length) := by
      rw [List.take_eq_take]
      omega
    rw [htake, ← List.map_append, List.take_append_drop]
  · intro ckpt i hi
    rw [generate_embeddings_calls] at hi
    exact (List.mem_range'_1.mp hi).1

/-- Claim C10: when an existing checkpoint holds strictly more vectors
than there are input texts, the generation loop performs zero provider
calls and the entire checkpoint is returned unchanged without error, so
the output is strictly longer than the input; output length equals input
length exactly under the precondition that the checkpoint length is at
most the number of input texts. -/
theorem generate_embeddings_stale_checkpoint (provider : Provider)
    (texts : List String) (ckpt : List Vec) :
    (texts.length < ckpt.length →
      (generate_embeddings provider texts (some ckpt)).1 = ckpt ∧
      (generate_embeddings provider texts (some ckpt)).2 = [] ∧
      texts.length < (generate_embeddings provider texts (some ckpt)).1.length) ∧
    (ckpt.length ≤ texts.length →
      (generate_embeddings provider texts (some ckpt)).1.length = texts.length) := by
  constructor
  · intro h
    have hd : texts.drop ckpt.length = [] := by
      rw [List.drop_eq_nil_iff]
      omega
    refine ⟨?_, ?_, ?_⟩
    · rw [generate_embeddings_some, hd]; simp
    · rw [generate_embeddings_calls, hd]; rfl
    · rw [generate_embeddings_some, hd]; simpa using h
  · intro h
    rw [generate_embeddings_some]
    simp
    omega

/-- Concrete deterministic provider for witnesses: fails exactly on the
text `b` and otherwise returns the one-coordinate vector `[1]`. -/
def provider5 : Provider := fun s => if s = "b" then none else some [(1 : ℚ)]

/-- Concrete ten-text corpus t0..t9 for the resumability witness. -/
def texts10 : List String := ["a", "b", "c", "d", "e", "f", "g", "h", "i", "j"]

/-- Witness for C5 at the concrete ten-text corpus with a checkpoint
after the first five texts, including a provider failure inside the
checkpointed half. -/
theorem generate_embeddings_resume_eq_one_pass_witness :
    ((generate_embeddings provider5 texts10
        (some (generate_embeddings provider5 (texts10.take 5) none).1)).1
      = (generate_embeddings provider5 texts10 none).1) ∧
    (1 : Nat) ≤ 1 :=
  ⟨(generate_embeddings_resume_eq_one_pass provider5 texts10 5).1,
   (generate_embeddings_resume_eq_one_pass provider5 texts10 5).2 [[1]] 1
     (by rw [generate_embeddings_calls]; decide)⟩

/-- Witness for C10: a two-vector checkpoint against a one-text corpus
returns both checkpoint vectors and performs no provider call, and a
one-vector checkpoint against a two-text corpus restores the
length-alignment guarantee. -/
theorem generate_embeddings_stale_checkpoint_witness :
    ((generate_embeddings provider5 ["a"] (some [[1], [2]])).1 = [[1], [2]] ∧
     (generate_embeddings provider5 ["a"] (some [[1], [2]])).2 = [] ∧
     (1 : Nat) < (generate_embeddings provider5 ["a"] (some [[1], [2]])).1.length) ∧
    (generate_embeddings provider5 ["a", "b"] (some [[1]])).1.length = 2 :=
  ⟨(generate_embeddings_stale_checkpoint provider5 ["a"] [[1], [2]]).1 (by decide),
   (generate_embeddings_stale_checkpoint provider5 ["a", "b"] [[1]]).2 (by decide)⟩

/-- Claim C8: for every directory listing, the corpus loader includes
exactly the `.json` records whose abstract text is present and non-empty
after trimming whitespace — in listing order, with the trimmed text and
the pmid — and skips all others; in particular a corpus of three
documents with texts alpha, empty, beta yields exactly the two documents
alpha and beta. -/
theorem load_abstracts_keeps_nonempty :
    (∀ files : List AbstractFile,
        load_abstracts files =
          ((files.filter keepFile).map (fun f => pyStrip (f.abstract.getD "")),
           (files.filter keepFile).map (fun f => f.pmid))) ∧
    load_abstracts
        [⟨"1.json", "pA", some "alpha"⟩, ⟨"2.json", "pE", some ""⟩,
         ⟨"3.json", "pB", some "beta"⟩]
      = (["alpha", "beta"], ["pA", "pB"]) := by
  constructor
  · intro files
    induction files with
    | nil => rfl
    | cons f rest ih =>
      by_cases hE : pyEndsWith f.name ".json"
      · by_cases hT : pyStrip (f.abstract.getD "") = ""
        · simp [load_abstracts, List.filter_cons, keepFile, hE, hT, ih]
        · simp [load_abstracts, List.filter_cons, keepFile, hE, hT, ih]
      · simp [load_abstracts, List.filter_cons, keepFile, hE, ih]
  · decide

/-- Claim C4 evaluation: the corpus loader output is a function of the
`os.listdir` enumeration order, which Python leaves arbitrary; two runs
over the same directory contents (the same set of files, here a
two-element permutation) can produce different (texts, ids) sequences,
because the code never sorts the listing. -/
theorem load_abstracts_listing_order_sensitive :
    [fileA, fileB].Perm [fileB, fileA] ∧
    load_abstracts [fileA, fileB] ≠ load_abstracts [fileB, fileA] :=
  ⟨List.Perm.swap fileB fileA [], by decide⟩

/-- Claim C6: L2 normalization as FAISS implements it never divides by
zero on any input — a vector of zero squared norm (in particular the
all-zero placeholder of any length) is returned unchanged, and a vector
of unit norm is returned unchanged (exactly, in the rational
idealization, given that the square root function fixes 1). -/
theorem normalize_L2_safe (sqrt : ℚ → ℚ) (v : Vec) :
    (normSq v = 0 → normalize_L2 sqrt v = v) ∧
    (∀ d : Nat,
      normalize_L2 sqrt (List.replicate d (0 : ℚ)) = List.replicate d (0 : ℚ)) ∧
    (sqrt 1 = 1 → normSq v = 1 → normalize_L2 sqrt v = v) := by
  refine ⟨?_, ?_, ?_⟩
  · intro h
    simp [normalize_L2, h]
  · intro d
    have hz : normSq (List.replicate d (0 : ℚ)) = 0 := by
      simp [normSq]
    simp [normalize_L2, hz]
  · intro h1 h2
    simp [normalize_L2, h2, h1]

/-- Witness for C6 at the concrete zero vector `[0, 0]` and the concrete
unit vector `[1, 0]`, with the identity as the square root function
(only its value at 1 matters). -/
theorem normalize_L2_safe_witness :
    normalize_L2 id [0, 0] = [0, 0] ∧ normalize_L2 id [1, 0] = [1, 0] :=
  ⟨(normalize_L2_safe id [0, 0]).1 (by norm_num [normSq]),
   (normalize_L2_safe id [1, 0]).2.2 rfl (by norm_num [normSq])⟩

/-- Claim C9: building an index from N vectors yields `ntotal = N`; when
the identifier map produced alongside the embeddings has length N, the
map length equals `ntotal`, position i of the map corresponds to row i
of the index (row i is exactly the normalization of input vector i, in
input order — never reordered), and the correspondence survives the
save/load round trip unchanged. -/
theorem build_index_positional_invariant (sqrt : ℚ → ℚ) (embs : List Vec)
    (pmids : List String) (fs : SavedState) (h : pmids.length = embs.length) :
    (build_faiss_index sqrt embs).ntotal = embs.length ∧
    pmids.length = (build_faiss_index sqrt embs).ntotal ∧
    (∀ i : Nat, (build_faiss_index sqrt embs).vectors[i]?
        = (embs[i]?).map (normalize_L2 sqrt)) ∧
    load_faiss_index (save_index fs (build_faiss_index sqrt embs) pmids)
      = Except.ok (build_faiss_index sqrt embs, pmids) := by
  refine ⟨?_, ?_, ?_, rfl⟩
  · simp [build_faiss_index, FaissIndex.ntotal]
  · simp [build_faiss_index, FaissIndex.ntotal, h]
  · intro i
    simp [build_faiss_index]

/-- Witness for C9 at a concrete two-vector build with a two-entry
identifier map and an empty starting filesystem. -/
theorem build_index_positional_invariant_witness :
    (build_faiss_index id [[1], [0]]).ntotal = 2 ∧
    (["a", "b"] : List String).length = (build_faiss_index id [[1], [0]]).ntotal ∧
    (build_faiss_index id [[1], [0]]).vectors[0]?
      = (([[1], [0]] : List Vec)[0]?).map (normalize_L2 id) ∧
    load_faiss_index
        (save_index ⟨none, none⟩ (build_faiss_index id [[1], [0]]) ["a", "b"])
      = Except.ok (build_faiss_index id [[1], [0]], ["a", "b"]) := by
  obtain ⟨h1, h2, h3, h4⟩ :=
    build_index_positional_invariant id [[1], [0]] ["a", "b"] ⟨none, none⟩ rfl
  exact ⟨h1, h2, h3 0, h4⟩

/-- Claim C7: loading the pair written by `save_index` gives back the
same index and the same identifier map — the vector count is preserved
and retrieval over the reloaded pair returns identical (id, score)
results to the pre-save index for every query and every k. -/
theorem save_load_round_trip (fs : SavedState) (idx : FaissIndex)
    (pmids : List String) :
    load_faiss_index (save_index fs idx pmids) = Except.ok (idx, pmids) ∧
    ∀ (loaded : FaissIndex) (ids : List String),
      load_faiss_index (save_index fs idx pmids) = Except.ok (loaded, ids) →
        loaded.ntotal = idx.ntotal ∧ ids = pmids ∧
        ∀ (sqrt : ℚ → ℚ) (embedQuery : String → Vec) (k : Nat) (q : String),
          getRelevantDocuments sqrt embedQuery loaded ids k q
            = getRelevantDocuments sqrt embedQuery idx pmids k q := by
  refine ⟨rfl, ?_⟩
  intro loaded ids h
  simp only [load_faiss_index, save_index, Except.ok.injEq, Prod.mk.injEq] at h
  obtain ⟨hl, hi⟩ := h
  subst hl; subst hi
  exact ⟨rfl, rfl, fun _ _ _ _ => rfl⟩

/-- Witness for C7 at a concrete one-row index, identifier map `[p0]`,
and an empty starting filesystem, instantiated at k = 1 and a fixed
query. -/
theorem save_load_round_trip_witness :
    load_faiss_index (save_index ⟨none, none⟩ (⟨[[1]]⟩ : FaissIndex) ["p0"])
      = Except.ok ((⟨[[1]]⟩ : FaissIndex), ["p0"]) ∧
    (⟨[[1]]⟩ : FaissIndex).ntotal = (⟨[[1]]⟩ : FaissIndex).ntotal ∧
    (["p0"] : List String) = ["p0"] ∧
    getRelevantDocuments id (fun _ => [1]) ⟨[[1]]⟩ ["p0"] 1 "q"
      = getRelevantDocuments id (fun _ => [1]) ⟨[[1]]⟩ ["p0"] 1 "q" := by
  obtain ⟨h1, h2⟩ := save_load_round_trip ⟨none, none⟩ (⟨[[1]]⟩ : FaissIndex) ["p0"]
  obtain ⟨ha, hb, hc⟩ := h2 ⟨[[1]]⟩ ["p0"] h1
  exact ⟨h1, ha, hb, hc id (fun _ => [1]) 1 "q"⟩

/-- Claim C1 evaluation: against an index holding a single vector, a
retrieval with k = 2 does not return the single available result — it
returns two documents and no error, because the FAISS padding label -1
is resolved through the pmid map by Python negative indexing to the last
identifier (here the only one, with the bottom sentinel score). So the
retriever can return more results than the index has vectors. -/
theorem retriever_k_exceeds_ntotal_eval :
    demoIndex.ntotal = 1 ∧
    getRelevantDocuments id demoEmbed demoIndex ["p0"] 2 "q"
      = some [("p0", ((1 : ℚ) : WithBot ℚ)), ("p0", (⊥ : WithBot ℚ))] ∧
    (getRelevantDocuments id demoEmbed demoIndex ["p0"] 2 "q").map List.length
      = some 2 := by
  have hq : normalize_L2 id (demoEmbed "q") = [1, 0] := by
    norm_num [demoEmbed, normalize_L2, normSq]
  have hd : dot [1, 0] ([1, 0] : Vec) = 1 := by norm_num [dot]
  have hs : demoIndex.search [1, 0] 2
      = [((0 : Int), ((1 : ℚ) : WithBot ℚ)), ((-1 : Int), (⊥ : WithBot ℚ))] := by
    simp [FaissIndex.search, scoreRows, demoIndex, rankDesc, insertRanked, hd]
  have key : getRelevantDocuments id demoEmbed demoIndex ["p0"] 2 "q"
      = some [("p0", ((1 : ℚ) : WithBot ℚ)), ("p0", (⊥ : WithBot ℚ))] := by
    simp only [getRelevantDocuments, hq, hs]
    simp [mapDocs, pyIndex]
  exact ⟨rfl, key, by rw [key]; rfl⟩

/-- Claim C2 evaluation: with the configured default model (the 1024
dimensional `mxbai-embed-large`) and a provider failure on the second of
three texts, the generated sequence holds a 768-coordinate placeholder
between two 1024-coordinate vectors — the placeholder dimensionality is
hardcoded and does not match the provider output dimensionality. -/
theorem placeholder_dim_mismatch_eval :
    ((generate_embeddings providerMx ["t0", "t1", "t2"] none).1.map List.length)
      = [1024, 768, 1024] ∧ (768 : Nat) ≠ 1024 := by
  constructor
  · rw [generate_embeddings_none]
    rfl
  · decide
